import Mathlib

/-!
# Shallow embedding of `tf_from_scratch.ipynb`

This file embeds the Transformer-encoder notebook (classes `InputEmbedding`,
`PositionalEncoding`, `LayerNormalization`, `PositionWiseFeedForward`,
`MultiHeadAttentionBlock`, `ResidualConnection`, `EncoderBlock`, `Encoder`)
into Lean and proves properties of the embedded code.

Modelling conventions:
* Tensors are total functions `Fin … → ℝ` (one `Fin` per axis); float
  arithmetic is modelled by exact real arithmetic.
* Fallible Python code (assertions, shape errors, TypeErrors from Python
  argument passing) is modelled with `Except String`.
* `nn.Dropout` draws random masks during training.  Its *realized* action on
  one call is passed as an explicit function argument (`dropFn`); for dropout
  probability 0 (and in eval mode) that action is the identity.
* Two argument-passing facts of Python/PyTorch are part of the embedding:
  `Tensor.masked_fill` accepts only a `Tensor` mask (a plain Python `bool`
  such as the value of `nn.Dropout() == 0` makes it raise a `TypeError`,
  because `masked_fill` performs no number-to-tensor coercion), and a call
  that passes more positional arguments than a `def` declares raises a
  `TypeError`.
-/

noncomputable section

/-- A rank-3 tensor of shape `(batch, seq_len, features)`. -/
abbrev Tensor3 (b s d : ℕ) : Type := Fin b → Fin s → Fin d → ℝ

/-- A rank-4 tensor of shape `(batch, heads, seq_len, features)`. -/
abbrev Tensor4 (b h s d : ℕ) : Type := Fin b → Fin h → Fin s → Fin d → ℝ

/-- `nn.Linear(dIn, dOut, bias=False)` applied to the last axis:
`y[..., i] = Σ_j W[i, j] * x[..., j]`. -/
def linearNoBias {b s dIn dOut : ℕ} (W : Fin dOut → Fin dIn → ℝ)
    (x : Tensor3 b s dIn) : Tensor3 b s dOut :=
  fun bb ss i => ∑ j, W i j * x bb ss j

/-- `nn.Linear(dIn, dOut)` with bias, applied to the last axis. -/
def linearWithBias {b s dIn dOut : ℕ} (W : Fin dOut → Fin dIn → ℝ)
    (bv : Fin dOut → ℝ) (x : Tensor3 b s dIn) : Tensor3 b s dOut :=
  fun bb ss i => (∑ j, W i j * x bb ss j) + bv i

/-- Softmax of one row: `softmax(v)[i] = exp(v i) / Σ_j exp(v j)`. -/
def softmaxRow {n : ℕ} (v : Fin n → ℝ) : Fin n → ℝ :=
  fun i => Real.exp (v i) / ∑ j, Real.exp (v j)

/-- `True` exactly on `Except.ok` values. -/
def exceptToBool {α : Type} (e : Except String α) : Bool :=
  match e with
  | Except.ok _ => true
  | Except.error _ => false

/-! ## InputEmbedding -/

/-- `InputEmbedding`: an embedding table of shape `(vocab_size, d_model)`. -/
structure InputEmbedding (vocab d_model : ℕ) where
  table : Fin vocab → Fin d_model → ℝ

/-- `InputEmbedding.forward`: look each token id up in the table and scale by
`sqrt(d_model)` (source: `self.embedding(x) * math.sqrt(self.d_model)`). -/
def InputEmbedding.forward {vocab d_model b s : ℕ}
    (self : InputEmbedding vocab d_model)
    (x : Fin b → Fin s → Fin vocab) : Tensor3 b s d_model :=
  fun bb ss i => self.table (x bb ss) i * Real.sqrt d_model

/-! ## PositionalEncoding -/

/-- The positional-encoding table written by `PositionalEncoding.__init__` for
an even `d_model` (the only case in which both slice assignments succeed):
the even slice `pe[:, 0::2]` holds `sin(position * denominator_harvard)` and
the odd slice `pe[:, 1::2]` holds `cos(position * denominator_harvard)`,
where the column of `denominator_harvard` used for table column `i` is
`exp(i * (-log 10000 / d_model))` for even `i` and
`exp((i-1) * (-log 10000 / d_model))` for odd `i`. -/
def peTable (d_model seq_len : ℕ) : Fin seq_len → Fin d_model → ℝ :=
  fun pos i =>
    if (i : ℕ) % 2 = 0 then
      Real.sin ((pos : ℝ) * Real.exp ((i : ℝ) * (-Real.log 10000 / d_model)))
    else
      Real.cos ((pos : ℝ) * Real.exp (((i : ℝ) - 1) * (-Real.log 10000 / d_model)))

/-- The table-building part of `PositionalEncoding.__init__`.
`torch.arange(0, d_model, 2)` has `(d_model + 1) / 2` entries (ceiling), so
the matrix `cos(position * denominator_harvard)` has that many columns, while
the slice `pe[:, 1::2]` has only `d_model / 2` (floor) columns; the slice
assignment raises a shape-mismatch `RuntimeError` when the two counts
differ. -/
def PositionalEncoding.init (d_model seq_len : ℕ) :
    Except String (Fin seq_len → Fin d_model → ℝ) :=
  if (d_model + 1) / 2 = d_model / 2 then Except.ok (peTable d_model seq_len)
  else Except.error "RuntimeError: shape mismatch in pe slice assignment"

/-- `PositionalEncoding.forward`: add `pe[:, :seq_len]` to the input
(broadcast over the batch axis) and apply dropout.  `dropFn` is the realized
action of `self.dropout` on this call. -/
def PositionalEncoding.forward {L d_model b s : ℕ}
    (pe : Fin L → Fin d_model → ℝ)
    (dropFn : Tensor3 b s d_model → Tensor3 b s d_model)
    (x : Tensor3 b s d_model) (hs : s ≤ L) : Tensor3 b s d_model :=
  dropFn (fun bb ss i => x bb ss i + pe ⟨ss.val, Nat.lt_of_lt_of_le ss.isLt hs⟩ i)

/-! ## LayerNormalization -/

/-- Mean of one row (`x.mean(dim=-1)`). -/
def rowMean {n : ℕ} (x : Fin n → ℝ) : ℝ := (∑ i, x i) / n

/-- Unbiased sample variance of one row (`torch.std` squares to this:
divisor `n - 1`). -/
def rowVariance {n : ℕ} (x : Fin n → ℝ) : ℝ :=
  (∑ i, (x i - rowMean x) ^ 2) / ((n : ℝ) - 1)

/-- Unbiased sample standard deviation of one row (`x.std(dim=-1)`). -/
def rowStd {n : ℕ} (x : Fin n → ℝ) : ℝ := Real.sqrt (rowVariance x)

/-- `LayerNormalization`: scalar scale `alpha`, scalar shift `bias`, and the
stability constant `eps` (default `1e-6`; `alpha` starts at 1 and `bias` at
0). -/
structure LayerNormalization where
  eps : ℝ
  alpha : ℝ
  bias : ℝ

/-- A freshly constructed `LayerNormalization()` (default `eps`, initial
parameter values). -/
def LayerNormalization.default : LayerNormalization :=
  { eps := 1e-6, alpha := 1, bias := 0 }

/-- `LayerNormalization.forward` on one row:
`alpha * ((x - mean) / (std ** 2 + eps)) + bias`. -/
def LayerNormalization.forward {n : ℕ} (self : LayerNormalization)
    (x : Fin n → ℝ) : Fin n → ℝ :=
  fun i => self.alpha * ((x i - rowMean x) / (rowStd x ^ 2 + self.eps)) + self.bias

/-- `LayerNormalization.forward` on a rank-3 tensor: the mean and standard
deviation are taken along the last axis with `keepdim=True`, so every
`(batch, position)` row is normalized independently. -/
def LayerNormalization.forward3 {b s d : ℕ} (self : LayerNormalization)
    (x : Tensor3 b s d) : Tensor3 b s d :=
  fun bb ss => self.forward (x bb ss)

/-! ## PositionWiseFeedForward -/

/-- `PositionWiseFeedForward`: two affine layers `(d_model → d_ff)` and
`(d_ff → d_model)`, each with bias. -/
structure PositionWiseFeedForward (d_model d_ff : ℕ) where
  w1 : Fin d_ff → Fin d_model → ℝ
  b1 : Fin d_ff → ℝ
  w2 : Fin d_model → Fin d_ff → ℝ
  b2 : Fin d_model → ℝ

/-- Elementwise `nn.ReLU()`. -/
def relu3 {b s d : ℕ} (x : Tensor3 b s d) : Tensor3 b s d :=
  fun bb ss i => max (x bb ss i) 0

/-- `PositionWiseFeedForward.forward`:
`linear2(dropout(relu(linear1(x))))`; `dropFn` is the realized action of
`self.dropout` on this call. -/
def PositionWiseFeedForward.forward {d_model d_ff b s : ℕ}
    (self : PositionWiseFeedForward d_model d_ff)
    (dropFn : Tensor3 b s d_ff → Tensor3 b s d_ff)
    (x : Tensor3 b s d_model) : Tensor3 b s d_model :=
  linearWithBias self.w2 self.b2 (dropFn (relu3 (linearWithBias self.w1 self.b1 x)))

/-! ## MultiHeadAttentionBlock -/

/-- A boolean attention mask over `(query position, key position)`, broadcast
over the batch and head axes; entries equal to 0 (`false`) are to be
suppressed. -/
abbrev Mask (s : ℕ) : Type := Fin s → Fin s → Bool

/-- The value bound to the `mask` parameter of the static method
`MultiHeadAttentionBlock.attention(query, key, value, mask=None, dropout=None)`.
Python passes arguments positionally without type checking, so besides `None`
and a mask tensor the slot can also receive the module `self.dropout` — which
is exactly what `MultiHeadAttentionBlock.forward` passes there. -/
inductive MaskArg (s : ℕ) where
  | none : MaskArg s
  | tensor (m : Mask s) : MaskArg s
  | dropoutModule (p : ℝ) : MaskArg s

/-- The PyTorch `TypeError` raised by `Tensor.masked_fill` when its mask
argument is the Python bool `False` (the value of `nn.Dropout() == 0`,
since `nn.Module` does not define equality with integers) rather than a
tensor; `masked_fill` performs no number-to-tensor coercion. -/
def maskedFillTypeError : String :=
  "TypeError: masked_fill argument mask must be Tensor, not bool"

/-- The `if mask is not None: attention_scores = attention_scores.masked_fill(mask == 0, -1e9)`
step of the static `attention` method.  With a genuine mask tensor it
overwrites the scores at positions where the mask is 0 with `-1e9`; with the
dropout module in the mask slot, `mask == 0` is the Python bool `False` and
`masked_fill` raises a `TypeError`. -/
def maskedFillStep {b h s : ℕ} (scores : Tensor4 b h s s) (mask : MaskArg s) :
    Except String (Tensor4 b h s s) :=
  match mask with
  | MaskArg.none => Except.ok scores
  | MaskArg.tensor m =>
      Except.ok (fun bb hh i j => if m i j = false then -1e9 else scores bb hh i j)
  | MaskArg.dropoutModule _ => Except.error maskedFillTypeError

/-- The static method `MultiHeadAttentionBlock.attention`: scaled dot-product
attention.  `scores = Q·Kᵀ / sqrt(d_k)`; the mask step above; softmax over the
last axis; optional dropout on the probability matrix (the realized action of
a dropout module, when one is passed); returns `(probs · V, probs)`. -/
def MultiHeadAttentionBlock.attention {b h s dk : ℕ}
    (query key value : Tensor4 b h s dk) (mask : MaskArg s)
    (dropout : Option (Tensor4 b h s s → Tensor4 b h s s)) :
    Except String (Tensor4 b h s dk × Tensor4 b h s s) :=
  let attention_scores : Tensor4 b h s s :=
    fun bb hh i j => (∑ l, query bb hh i l * key bb hh j l) / Real.sqrt dk
  match maskedFillStep attention_scores mask with
  | Except.error e => Except.error e
  | Except.ok scores1 =>
      let probs : Tensor4 b h s s := fun bb hh i => softmaxRow (scores1 bb hh i)
      let probs2 : Tensor4 b h s s :=
        match dropout with
        | Option.none => probs
        | Option.some f => f probs
      Except.ok (fun bb hh i j => ∑ l, probs2 bb hh i l * value bb hh l j, probs2)

/-- `MultiHeadAttentionBlock`: four square projection matrices of shape
`(d_model, d_model)` with `d_model = h * d_k`, and the dropout probability. -/
structure MultiHeadAttentionBlock (h dk : ℕ) where
  wq : Fin (h * dk) → Fin (h * dk) → ℝ
  wk : Fin (h * dk) → Fin (h * dk) → ℝ
  wv : Fin (h * dk) → Fin (h * dk) → ℝ
  wo : Fin (h * dk) → Fin (h * dk) → ℝ
  dropout_p : ℝ

/-- The `assert d_model % h == 0` check in `MultiHeadAttentionBlock.__init__`
(`h = 0` would already fail in Python at the modulo itself). -/
def MultiHeadAttentionBlock.initCheck (d_model h : ℕ) : Except String Unit :=
  if h = 0 then Except.error "ZeroDivisionError: integer modulo by zero"
  else if d_model % h = 0 then Except.ok ()
  else Except.error "AssertionError: d_model is not divisible by h"

/-- `view(b, s, h, d_k)` followed by `transpose(1, 2)`:
`out[b, i, s, j] = x[b, s, i * d_k + j]`. -/
def splitHeads {b s : ℕ} (h dk : ℕ) (x : Tensor3 b s (h * dk)) :
    Tensor4 b h s dk :=
  fun bb ii ss jj =>
    x bb ss ⟨ii.val * dk + jj.val, by
      have h1 : ii.val * dk + jj.val < (ii.val + 1) * dk := by
        rw [Nat.succ_mul]
        exact Nat.add_lt_add_left jj.isLt _
      exact Nat.lt_of_lt_of_le h1 (Nat.mul_le_mul_right dk ii.isLt)⟩

/-- `transpose(1, 2)` followed by `contiguous().view(b, -1, h * d_k)`:
`out[b, s, k] = x[b, k / d_k, s, k % d_k]`. -/
def combineHeads {b s : ℕ} (h dk : ℕ) (x : Tensor4 b h s dk) :
    Tensor3 b s (h * dk) :=
  fun bb ss kk =>
    have hdk : 0 < dk := by
      rcases Nat.eq_zero_or_pos dk with h0 | h0
      · exact absurd kk.isLt (by simp [h0])
      · exact h0
    x bb ⟨kk.val / dk, (Nat.div_lt_iff_lt_mul hdk).mpr kk.isLt⟩
      ss ⟨kk.val % dk, Nat.mod_lt _ hdk⟩

/-- `MultiHeadAttentionBlock.forward` exactly as the source wires it: project
`q`, `k`, `v`, split heads, and call the static `attention` method as
`MultiHeadAttentionBlock.attention(query, key, value, self.dropout)` — the
dropout module lands in the 4th positional slot, the `mask` parameter of
`attention`, and `attention`'s own `dropout` parameter stays `None`.  The
`mask` parameter of `forward` itself is never used. -/
def MultiHeadAttentionBlock.forward {h dk b s : ℕ}
    (self : MultiHeadAttentionBlock h dk) (q k v : Tensor3 b s (h * dk))
    (mask : Option (Mask s)) : Except String (Tensor3 b s (h * dk)) :=
  let query := linearNoBias self.wq q
  let key := linearNoBias self.wk k
  let value := linearNoBias self.wv v
  let query4 := splitHeads h dk query
  let key4 := splitHeads h dk key
  let value4 := splitHeads h dk value
  match MultiHeadAttentionBlock.attention query4 key4 value4
      (MaskArg.dropoutModule self.dropout_p) Option.none with
  | Except.error e => Except.error e
  | Except.ok (x, _attention_scores) =>
      Except.ok (linearNoBias self.wo (combineHeads h dk x))

/-! ## ResidualConnection -/

/-- `ResidualConnection`: a dropout layer and a `LayerNormalization()`. -/
structure ResidualConnection where
  dropout_p : ℝ
  norm : LayerNormalization

/-- The Python `TypeError` raised when `ResidualConnection(...)` is called
with two positional arguments: `ResidualConnection.__init__` declares only
`(self, dropout)`. -/
def residualArityTypeError : String :=
  "TypeError: ResidualConnection takes 2 positional arguments but 3 were given"

/-- Calling the `ResidualConnection` constructor with a list of positional
arguments.  Exactly one argument (the dropout probability) is accepted;
any other arity raises a `TypeError`. -/
def ResidualConnection.init (args : List ℝ) : Except String ResidualConnection :=
  match args with
  | [dropout] => Except.ok { dropout_p := dropout, norm := LayerNormalization.default }
  | _ => Except.error residualArityTypeError

/-- `ResidualConnection.forward`: `x + self.dropout(sublayer(self.norm(x)))` —
pre-normalization, then the sublayer, then dropout, then the residual add.
`dropFn` is the realized action of `self.dropout` on this call; an exception
raised by the sublayer propagates. -/
def ResidualConnection.forward {b s d : ℕ} (self : ResidualConnection)
    (dropFn : Tensor3 b s d → Tensor3 b s d) (x : Tensor3 b s d)
    (sublayer : Tensor3 b s d → Except String (Tensor3 b s d)) :
    Except String (Tensor3 b s d) := do
  let y ← sublayer (LayerNormalization.forward3 self.norm x)
  Except.ok (fun bb ss i => x bb ss i + dropFn y bb ss i)

/-! ## EncoderBlock and Encoder -/

/-- `EncoderBlock`: one self-attention block, one feed-forward block, and the
two residual connections of `self.res_con`. -/
structure EncoderBlock (h dk d_ff : ℕ) where
  selfattn_block : MultiHeadAttentionBlock h dk
  feedforward_block : PositionWiseFeedForward (h * dk) d_ff
  res0 : ResidualConnection
  res1 : ResidualConnection

/-- `EncoderBlock.__init__`: stores the two sub-blocks and builds
`nn.ModuleList([ResidualConnection(features, dropout) for _ in range(2)])` —
each list element calls the `ResidualConnection` constructor with *two*
positional arguments. -/
def EncoderBlock.init {h dk d_ff : ℕ} (features : ℕ)
    (selfattn_block : MultiHeadAttentionBlock h dk)
    (feedforward_block : PositionWiseFeedForward (h * dk) d_ff)
    (dropout : ℝ) : Except String (EncoderBlock h dk d_ff) := do
  let r0 ← ResidualConnection.init [(features : ℝ), dropout]
  let r1 ← ResidualConnection.init [(features : ℝ), dropout]
  Except.ok { selfattn_block := selfattn_block,
              feedforward_block := feedforward_block, res0 := r0, res1 := r1 }

/-- `EncoderBlock.forward`: the first residual connection wraps self-attention
with the source mask, the second wraps the feed-forward block.  The three
`dropFn` arguments are the realized actions of the dropout layers of
`res_con[0]`, `res_con[1]` and the feed-forward block on this call. -/
def EncoderBlock.forward {h dk d_ff b s : ℕ} (self : EncoderBlock h dk d_ff)
    (drop0 drop1 : Tensor3 b s (h * dk) → Tensor3 b s (h * dk))
    (dropFF : Tensor3 b s d_ff → Tensor3 b s d_ff)
    (x : Tensor3 b s (h * dk)) (src_mask : Option (Mask s)) :
    Except String (Tensor3 b s (h * dk)) := do
  let x1 ← self.res0.forward drop0 x
    (fun y => self.selfattn_block.forward y y y src_mask)
  self.res1.forward drop1 x1
    (fun y => Except.ok (self.feedforward_block.forward dropFF y))

/-- `Encoder`: a list of layers and a final `LayerNormalization()`. -/
structure Encoder (h dk d_ff : ℕ) where
  layers : List (EncoderBlock h dk d_ff)
  norm : LayerNormalization

/-- `Encoder.forward`: thread `x` and the mask through every layer, then apply
the final normalization.  The realized dropout actions (identity when the
dropout probability is 0) are applied uniformly to each layer. -/
def Encoder.forward {h dk d_ff b s : ℕ} (self : Encoder h dk d_ff)
    (drop0 drop1 : Tensor3 b s (h * dk) → Tensor3 b s (h * dk))
    (dropFF : Tensor3 b s d_ff → Tensor3 b s d_ff)
    (x : Tensor3 b s (h * dk)) (mask : Option (Mask s)) :
    Except String (Tensor3 b s (h * dk)) := do
  let y ← self.layers.foldlM
    (fun acc layer => layer.forward drop0 drop1 dropFF acc mask) x
  Except.ok (LayerNormalization.forward3 self.norm y)

/-! ## The end-to-end pipeline of the spec's determinism property -/

/-- The pipeline `InputEmbedding → PositionalEncoding → one EncoderBlock →
final LayerNormalization` for `d_model = 4` (`h = 2`, `d_k = 2`),
`seq_len = 4`, dropout probability 0 (so every realized dropout action is the
identity), exactly as the source would execute it: the modules are
constructed, then the data is fed through. -/
def c3Pipeline (vocab d_ff : ℕ) (emb : InputEmbedding vocab 4)
    (attn : MultiHeadAttentionBlock 2 2)
    (ff : PositionWiseFeedForward 4 d_ff)
    (ids : Fin 1 → Fin 4 → Fin vocab) (mask : Option (Mask 4)) :
    Except String (Tensor3 1 4 4) := do
  let pe ← PositionalEncoding.init 4 4
  let eb ← EncoderBlock.init 4 attn ff 0
  let x1 := emb.forward ids
  let x2 := PositionalEncoding.forward pe id x1 (Nat.le_refl 4)
  let y ← EncoderBlock.forward eb id id id x2 mask
  Except.ok (LayerNormalization.forward3 LayerNormalization.default y)

/-! ## Concrete instances used to evaluate the code -/

/-- A single-head attention block (`d_model = 1`, `h = 1`) whose four
projection matrices are all `[[1]]` and whose dropout probability is 0. -/
def mhaOneHead : MultiHeadAttentionBlock 1 1 :=
  { wq := fun _ _ => 1, wk := fun _ _ => 1, wv := fun _ _ => 1,
    wo := fun _ _ => 1, dropout_p := 0 }

/-- A concrete input of shape `(1, 2, 1)`: position 0 holds 0, position 1
holds 1. -/
def qkvC1 : Tensor3 1 2 1 := fun _ ss _ => (ss.val : ℝ)

/-- A mask that keeps key position 0 and fully masks key position 1 for every
query. -/
def maskC1 : Mask 2 := fun _ kpos => kpos.val == 0

/-- An attention block with `d_model = 8`, `h = 4` and zero weights. -/
def mhaEightFour : MultiHeadAttentionBlock 4 2 :=
  { wq := fun _ _ => 0, wk := fun _ _ => 0, wv := fun _ _ => 0,
    wo := fun _ _ => 0, dropout_p := 0 }

/-- The all-zero input of shape `(1, 1, 8)`. -/
def zeros118 : Tensor3 1 1 8 := fun _ _ _ => 0

/-- The row `[1, 2, 3, 4]` of the spec's worked LayerNormalization example. -/
def xRow14 : Fin 4 → ℝ := fun i => (i : ℕ) + 1

/-! ## Helper lemmas -/

lemma rowVariance_nonneg {n : ℕ} (x : Fin n → ℝ) : 0 ≤ rowVariance x := by
  rcases Nat.eq_zero_or_pos n with h0 | h0
  · subst h0; simp [rowVariance]
  · apply div_nonneg
    · exact Finset.sum_nonneg fun i _ => sq_nonneg _
    · have h1 : (1 : ℝ) ≤ (n : ℝ) := by exact_mod_cast h0
      linarith

lemma rowStd_sq {n : ℕ} (x : Fin n → ℝ) : rowStd x ^ 2 = rowVariance x :=
  Real.sq_sqrt (rowVariance_nonneg x)

/-- The denominator of `LayerNormalization.forward` is the (unbiased) sample
variance plus `eps`: `std ** 2` collapses to the variance exactly. -/
lemma layerNorm_forward_eq {n : ℕ} (self : LayerNormalization)
    (x : Fin n → ℝ) (i : Fin n) :
    self.forward x i
      = self.alpha * ((x i - rowMean x) / (rowVariance x + self.eps)) + self.bias := by
  unfold LayerNormalization.forward
  rw [rowStd_sq]

lemma rowMean_xRow14 : rowMean xRow14 = 5 / 2 := by
  unfold rowMean xRow14
  rw [Fin.sum_univ_four]
  norm_num [show ((3 : Fin 4) : ℕ) = 3 from rfl, show ((2 : Fin 4) : ℕ) = 2 from rfl,
    show ((1 : Fin 4) : ℕ) = 1 from rfl, show ((0 : Fin 4) : ℕ) = 0 from rfl]

lemma rowVariance_xRow14 : rowVariance xRow14 = 5 / 3 := by
  unfold rowVariance
  rw [rowMean_xRow14]
  unfold xRow14
  rw [Fin.sum_univ_four]
  norm_num [show ((3 : Fin 4) : ℕ) = 3 from rfl, show ((2 : Fin 4) : ℕ) = 2 from rfl,
    show ((1 : Fin 4) : ℕ) = 1 from rfl, show ((0 : Fin 4) : ℕ) = 0 from rfl]

end

/-! ## Claims -/

/-- C1: the claim fails on the code.  `MultiHeadAttentionBlock.forward` never
hands its mask argument to the attention computation: the dropout module
occupies the `mask` slot of the static `attention` method, `mask == 0` is the
Python bool `False`, and `masked_fill` rejects a non-tensor mask — so the call
with a mask that fully masks key position 1 raises a `TypeError` instead of
suppressing that position. -/
theorem C1_forward_with_mask_raises :
    MultiHeadAttentionBlock.forward mhaOneHead qkvC1 qkvC1 qkvC1
        (Option.some maskC1) = Except.error maskedFillTypeError := rfl

/-- C2: the claim fails on the code.  Calling `forward` with an all-ones mask
and calling it with `mask=None` do behave identically — but only because both
raise the same `TypeError` (the mask is never consulted); neither call returns
an attention result. -/
theorem C2_all_ones_mask_vs_none :
    MultiHeadAttentionBlock.forward mhaOneHead qkvC1 qkvC1 qkvC1
        (Option.some (fun _ _ => true)) = Except.error maskedFillTypeError ∧
    MultiHeadAttentionBlock.forward mhaOneHead qkvC1 qkvC1 qkvC1
        Option.none = Except.error maskedFillTypeError :=
  ⟨rfl, rfl⟩

/-- C3: the claim fails on the code.  The pipeline
`InputEmbedding → PositionalEncoding → EncoderBlock → final norm` with
`d_model = 4`, `seq_len = 4`, dropout 0 never produces any output:
`EncoderBlock.__init__` calls `ResidualConnection(features, dropout)` with two
positional arguments while `ResidualConnection.__init__` accepts only
`dropout`, so construction raises a `TypeError` on every run. -/
theorem C3_pipeline_never_runs :
    ∀ (vocab d_ff : ℕ) (emb : InputEmbedding vocab 4)
      (attn : MultiHeadAttentionBlock 2 2)
      (ff : PositionWiseFeedForward 4 d_ff)
      (ids : Fin 1 → Fin 4 → Fin vocab) (mask : Option (Mask 4)),
      c3Pipeline vocab d_ff emb attn ff ids mask
        = Except.error residualArityTypeError :=
  fun _ _ _ _ _ _ _ => rfl

/-- C4: the construction half of the claim holds — `d_model = 10`, `h = 3`
fails the divisibility assertion and `d_model = 8`, `h = 4` constructs — but
the forward half fails: `forward` raises a `TypeError` for every input (the
dropout module sits in the mask slot of the attention call), so it never
produces an output of shape `(batch, seq_len, 8)`. -/
theorem C4_init_check_and_forward :
    MultiHeadAttentionBlock.initCheck 10 3
        = Except.error "AssertionError: d_model is not divisible by h" ∧
    MultiHeadAttentionBlock.initCheck 8 4 = Except.ok () ∧
    MultiHeadAttentionBlock.forward mhaEightFour zeros118 zeros118 zeros118
        Option.none = Except.error maskedFillTypeError ∧
    ∀ (b s : ℕ) (blk : MultiHeadAttentionBlock 4 2) (q k v : Tensor3 b s 8)
      (m : Option (Mask s)),
      MultiHeadAttentionBlock.forward blk q k v m
        = Except.error maskedFillTypeError :=
  ⟨rfl, rfl, rfl, fun _ _ _ _ _ _ _ => rfl⟩

/-- C7: `ResidualConnection.forward` computes
`x + dropout(sublayer(norm(x)))`: the normalization is applied to `x` before
the sublayer (pre-norm), then the realized dropout action, then the residual
add. -/
theorem C7_residual_pre_norm :
    ∀ (b s d : ℕ) (rc : ResidualConnection)
      (dropFn : Tensor3 b s d → Tensor3 b s d) (x : Tensor3 b s d)
      (f : Tensor3 b s d → Tensor3 b s d),
      rc.forward dropFn x (fun y => Except.ok (f y))
        = Except.ok (fun bb ss i =>
            x bb ss i
              + dropFn (f (LayerNormalization.forward3 rc.norm x)) bb ss i) :=
  fun _ _ _ _ _ _ _ => rfl

/-- C8: `MultiHeadAttentionBlock.forward` passes `self.dropout` as the fourth
positional argument (the `mask` parameter) of the static `attention` method
and leaves the `dropout` parameter `None`.  Consequently the user-supplied
mask never influences the computation (the result is the same for every mask
argument), no dropout is ever applied to a probability matrix, and the
`masked_fill` branch runs with a non-tensor condition on every call, raising a
`TypeError`; with a genuine tensor mask in the mask slot the same `attention`
method succeeds. -/
theorem C8_dropout_module_in_mask_slot :
    ∀ (h dk b s : ℕ) (blk : MultiHeadAttentionBlock h dk)
      (q k v : Tensor3 b s (h * dk)) (m : Option (Mask s)),
      blk.forward q k v m = blk.forward q k v Option.none ∧
      blk.forward q k v m = Except.error maskedFillTypeError ∧
      (∀ (query key value : Tensor4 b h s dk) (p : ℝ)
         (dp : Option (Tensor4 b h s s → Tensor4 b h s s)),
         MultiHeadAttentionBlock.attention query key value
             (MaskArg.dropoutModule p) dp = Except.error maskedFillTypeError) ∧
      (∀ (query key value : Tensor4 b h s dk) (tm : Mask s),
         ∃ out, MultiHeadAttentionBlock.attention query key value
             (MaskArg.tensor tm) Option.none = Except.ok out) :=
  fun _ _ _ _ _ _ _ _ _ =>
    ⟨rfl, rfl, fun _ _ _ _ _ => rfl, fun _ _ _ _ => ⟨_, rfl⟩⟩

/-- C9: no `EncoderBlock` can ever be constructed: its `__init__` calls
`ResidualConnection(features, dropout)` with two positional arguments, but
`ResidualConnection.__init__` accepts only a single `dropout` argument, so
construction raises a `TypeError` for every combination of arguments. -/
theorem C9_encoder_block_init_raises :
    ∀ (h dk d_ff features : ℕ) (attn : MultiHeadAttentionBlock h dk)
      (ff : PositionWiseFeedForward (h * dk) d_ff) (dropout : ℝ),
      EncoderBlock.init features attn ff dropout
        = Except.error residualArityTypeError :=
  fun _ _ _ _ _ _ _ => rfl

/-- C10: `PositionalEncoding` construction succeeds exactly for even
`d_model`: the cosine slice assignment writes `⌈d_model / 2⌉` computed columns
(the length of `torch.arange(0, d_model, 2)`) into the `⌊d_model / 2⌋`
odd-index slots of the table, which mismatch exactly when `d_model` is odd. -/
theorem C10_pe_odd_d_model_fails (d_model seq_len : ℕ) :
    ((d_model + 1) / 2 = d_model / 2 ↔ d_model % 2 = 0) ∧
    (d_model % 2 = 1 →
      PositionalEncoding.init d_model seq_len
        = Except.error "RuntimeError: shape mismatch in pe slice assignment") ∧
    (d_model % 2 = 0 →
      PositionalEncoding.init d_model seq_len
        = Except.ok (peTable d_model seq_len)) := by
  refine ⟨by omega, fun hd => ?_, fun hd => ?_⟩
  · have hne : ¬((d_model + 1) / 2 = d_model / 2) := by omega
    simp [PositionalEncoding.init, hne]
  · have he : (d_model + 1) / 2 = d_model / 2 := by omega
    simp [PositionalEncoding.init, he]

/-- C5: `LayerNormalization.forward` normalizes each row along the last axis
independently and divides by `std ** 2 + eps` — the square of the (unbiased)
standard deviation, i.e. the sample variance, plus `eps` — not by
`std + eps`; on the spec's worked example `[1, 2, 3, 4]` with
`alpha = 1`, `bias = 0`, `eps = 1e-6` the exact outputs are
`±4500000/5000003` and `±1500000/5000003`, within `1/1000` of
`[-0.9, -0.3, 0.3, 0.9]`. -/
theorem C5_layer_norm_divisor :
    (∀ (n : ℕ) (self : LayerNormalization) (x : Fin n → ℝ) (i : Fin n),
        LayerNormalization.forward self x i
          = self.alpha * ((x i - rowMean x) / (rowVariance x + self.eps))
              + self.bias) ∧
    (∀ (b s d : ℕ) (self : LayerNormalization) (x : Tensor3 b s d)
        (bb : Fin b) (ss : Fin s),
        LayerNormalization.forward3 self x bb ss = self.forward (x bb ss)) ∧
    LayerNormalization.forward LayerNormalization.default xRow14 0
        = -(4500000 / 5000003) ∧
    LayerNormalization.forward LayerNormalization.default xRow14 1
        = -(1500000 / 5000003) ∧
    LayerNormalization.forward LayerNormalization.default xRow14 2
        = 1500000 / 5000003 ∧
    LayerNormalization.forward LayerNormalization.default xRow14 3
        = 4500000 / 5000003 ∧
    |LayerNormalization.forward LayerNormalization.default xRow14 0 + 9 / 10|
        < 1 / 1000 ∧
    |LayerNormalization.forward LayerNormalization.default xRow14 1 + 3 / 10|
        < 1 / 1000 ∧
    |LayerNormalization.forward LayerNormalization.default xRow14 2 - 3 / 10|
        < 1 / 1000 ∧
    |LayerNormalization.forward LayerNormalization.default xRow14 3 - 9 / 10|
        < 1 / 1000 := by
  have key : ∀ i : Fin 4,
      LayerNormalization.forward LayerNormalization.default xRow14 i
        = (xRow14 i - 5 / 2) / (5 / 3 + 1e-6) := by
    intro i
    rw [layerNorm_forward_eq, rowMean_xRow14, rowVariance_xRow14]
    simp [LayerNormalization.default]
  have e0 : LayerNormalization.forward LayerNormalization.default xRow14 0
      = -(4500000 / 5000003) := by
    rw [key]; unfold xRow14
    norm_num [show ((0 : Fin 4) : ℕ) = 0 from rfl]
  have e1 : LayerNormalization.forward LayerNormalization.default xRow14 1
      = -(1500000 / 5000003) := by
    rw [key]; unfold xRow14
    norm_num [show ((1 : Fin 4) : ℕ) = 1 from rfl]
  have e2 : LayerNormalization.forward LayerNormalization.default xRow14 2
      = 1500000 / 5000003 := by
    rw [key]; unfold xRow14
    norm_num [show ((2 : Fin 4) : ℕ) = 2 from rfl]
  have e3 : LayerNormalization.forward LayerNormalization.default xRow14 3
      = 4500000 / 5000003 := by
    rw [key]; unfold xRow14
    norm_num [show ((3 : Fin 4) : ℕ) = 3 from rfl]
  refine ⟨fun n self x i => layerNorm_forward_eq self x i,
    fun _ _ _ _ _ _ _ => rfl, e0, e1, e2, e3, ?_, ?_, ?_, ?_⟩
  · rw [e0, abs_lt]; constructor <;> norm_num
  · rw [e1, abs_lt]; constructor <;> norm_num
  · rw [e2, abs_lt]; constructor <;> norm_num
  · rw [e3, abs_lt]; constructor <;> norm_num

/-- C6: for even `d_model` the positional table satisfies
`pe[pos, i] = sin(pos / 10000 ^ (i / d_model))` at even `i` and
`pe[pos, i] = cos(pos / 10000 ^ ((i - 1) / d_model))` at odd `i` (the code's
shared divisor `exp(i * (-ln 10000 / d_model))` equals `10000 ^ (-i / d_model)`),
and the row at position 0 is `[0, 1, 0, 1, ...]`. -/
theorem C6_pe_formula (d_model seq_len : ℕ) (_hEven : d_model % 2 = 0)
    (pos : Fin seq_len) (i : Fin d_model) :
    ((i : ℕ) % 2 = 0 →
      peTable d_model seq_len pos i
        = Real.sin ((pos : ℝ) / 10000 ^ ((i : ℝ) / (d_model : ℝ)))) ∧
    ((i : ℕ) % 2 = 1 →
      peTable d_model seq_len pos i
        = Real.cos ((pos : ℝ) / 10000 ^ (((i : ℝ) - 1) / (d_model : ℝ)))) ∧
    ((pos : ℕ) = 0 →
      peTable d_model seq_len pos i = if (i : ℕ) % 2 = 0 then 0 else 1) := by
  have hpow : ∀ t : ℝ, (pos : ℝ) / (10000 : ℝ) ^ (t / (d_model : ℝ))
      = (pos : ℝ) * Real.exp (t * (-Real.log 10000 / d_model)) := by
    intro t
    rw [Real.rpow_def_of_pos (by norm_num : (0 : ℝ) < 10000), div_eq_mul_inv,
      ← Real.exp_neg]
    have harg : -(Real.log 10000 * (t / (d_model : ℝ)))
        = t * (-Real.log 10000 / d_model) := by ring
    rw [harg]
  refine ⟨fun h2 => ?_, fun h2 => ?_, fun hp => ?_⟩
  · unfold peTable
    rw [if_pos h2, hpow]
  · unfold peTable
    rw [if_neg (by omega), hpow]
  · have hpz : ((pos : ℕ) : ℝ) = 0 := by rw [hp]; norm_num
    unfold peTable
    split_ifs with h2
    · rw [hpz, zero_mul, Real.sin_zero]
    · rw [hpz, zero_mul, Real.cos_zero]

/-- C6 witness: at `d_model = 2`, `seq_len = 1` the position-0 row of the
table is `[0, 1]`. -/
theorem C6_pe_formula_witness : peTable 2 1 0 0 = 0 ∧ peTable 2 1 0 1 = 1 := by
  constructor
  · have h := (C6_pe_formula 2 1 (by decide) 0 0).2.2 (by decide)
    simpa using h
  · have h := (C6_pe_formula 2 1 (by decide) 0 1).2.2 (by decide)
    simpa using h

/-- C10 witness: at `d_model = 3` construction fails, at `d_model = 4` it
succeeds. -/
theorem C10_pe_odd_d_model_fails_witness :
    PositionalEncoding.init 3 1
        = Except.error "RuntimeError: shape mismatch in pe slice assignment" ∧
    PositionalEncoding.init 4 1 = Except.ok (peTable 4 1) :=
  ⟨(C10_pe_odd_d_model_fails 3 1).2.1 (by decide),
   (C10_pe_odd_d_model_fails 4 1).2.2 (by decide)⟩
